import Mathlib

/-!
Verification of the contract-payment and renewal core of the siad repository.

The Go sources are shallowly embedded: machine integers become `Nat` with an
explicit `% 2 ^ 64` where uint64 overflow matters, arbitrary-precision
`types.Currency` values become `Nat`, byte strings become `List Nat`, and
fallible Go functions return `Option` or `Except`.  A Go slice-index panic and
a `build.Critical` halt are modelled by explicit failure constructors.
-/

namespace Siad

/-- Modulus of Go's uint64 type. -/
def uint64Mod : Nat := 2 ^ 64

/-! ## types/filecontracts.go (src/unnamed/part_002) -/

/-- A SiacoinOutput as used by file contracts: a currency value and the unlock
hash of its recipient (the hash is opaque here and modelled as a `Nat`). -/
structure SiacoinOutput where
  value : Nat
  unlockHash : Nat
  deriving Repr, DecidableEq

/-- The fields of `types.FileContractRevision` used by the payment path. -/
structure FileContractRevision where
  parentID : Nat
  newRevisionNumber : Nat
  newFileSize : Nat
  newFileMerkleRoot : Nat
  newWindowStart : Nat
  newWindowEnd : Nat
  newValidProofOutputs : List SiacoinOutput
  newMissedProofOutputs : List SiacoinOutput
  newUnlockHash : Nat
  deriving Repr, DecidableEq

/-- Errors of `FileContractRevision.PaymentRevision`.  The two
`revisionCostTooHigh` constructors are `ErrRevisionCostTooHigh` with the two
distinct contexts added in the source; `indexOutOfRange` models a Go
slice-index panic on a revision with too few outputs. -/
inductive PaymentRevisionError where
  | revisionCostTooHighValid
  | revisionCostTooHighMissed
  | indexOutOfRange
  deriving Repr, DecidableEq

/-- The zero value of a Go `SiacoinOutput`, as produced by `make`. -/
def zeroOutput : SiacoinOutput := ⟨0, 0⟩

/-- Model of `make([]SiacoinOutput, n)` followed by `copy` from `l`: the first
`min n l.length` entries of `l`, padded with zero outputs to length `n`
(and truncated to length `n` when `l` is longer). -/
def makeCopy (n : Nat) (l : List SiacoinOutput) : List SiacoinOutput :=
  l.take n ++ List.replicate (n - l.length) zeroOutput

/-- Model of `FileContractRevision.PaymentRevision` from types/filecontracts.go:
reallocates the output slices at lengths 2 and 3, rejects when the renter's
valid or missed output (index 0) is smaller than `amount`, then moves the
valid payout from renter (index 0) to host (index 1), moves the missed payout
from renter (index 0) to the void output (index 2), and increments the uint64
revision number. -/
def FileContractRevision.paymentRevision (fcr : FileContractRevision) (amount : Nat) :
    Except PaymentRevisionError FileContractRevision :=
  let newValid := makeCopy 2 fcr.newValidProofOutputs
  let newMissed := makeCopy 3 fcr.newMissedProofOutputs
  match fcr.newValidProofOutputs[0]? with
  | none => .error .indexOutOfRange
  | some v0 =>
    if v0.value < amount then .error .revisionCostTooHighValid
    else match fcr.newMissedProofOutputs[0]? with
    | none => .error .indexOutOfRange
    | some m0 =>
      if m0.value < amount then .error .revisionCostTooHighMissed
      else match fcr.newValidProofOutputs[1]? with
      | none => .error .indexOutOfRange
      | some v1 =>
        match fcr.newMissedProofOutputs[2]? with
        | none => .error .indexOutOfRange
        | some m2 =>
          .ok { fcr with
            newValidProofOutputs :=
              ((newValid.set 0 { v0 with value := v0.value - amount }).set 1
                { v1 with value := v1.value + amount })
            newMissedProofOutputs :=
              ((newMissed.set 0 { m0 with value := m0.value - amount }).set 2
                { m2 with value := m2.value + amount })
            newRevisionNumber := (fcr.newRevisionNumber + 1) % uint64Mod }

/-- Sum of the currency values of a list of outputs. -/
def sumValues (l : List SiacoinOutput) : Nat :=
  (l.map SiacoinOutput.value).sum

/-- Equality of `Except` results is decidable when both components are. -/
instance {ε α : Type} [DecidableEq ε] [DecidableEq α] : DecidableEq (Except ε α) :=
  fun a b =>
  match a, b with
  | .error e, .error f => decidable_of_iff (e = f) (by simp)
  | .ok x, .ok y => decidable_of_iff (x = y) (by simp)
  | .error _, .ok _ => isFalse (fun c => Except.noConfusion c)
  | .ok _, .error _ => isFalse (fun c => Except.noConfusion c)

/-! ## renter session payment (src/unnamed/part_003)

The renter-side `Session.payByContract` works on the go.sia.tech/core
revision type, whose four proof outputs are named fields.  Signatures,
hashes and keys are opaque and modelled as `Nat`; the signing and
verification primitives and the chain's signature-hash function are passed
in as function parameters, and the two transport steps are modelled by
injected outcomes (`writeFails`, `readResponse`). -/

/-- A core siacoin output: only its value matters to the payment path. -/
structure Output where
  value : Nat
  deriving Repr, DecidableEq

/-- The fields of the core contract revision used by `payByContract`. -/
structure CoreRevision where
  revisionNumber : Nat
  validRenterOutput : Output
  validHostOutput : Output
  missedRenterOutput : Output
  missedHostOutput : Output
  deriving Repr, DecidableEq

/-- An `rhp.Contract`: the working revision plus the latest signatures. -/
structure Contract where
  id : Nat
  revision : CoreRevision
  renterSignature : Nat
  hostSignature : Nat
  deriving Repr, DecidableEq

/-- The `payByContract` payment method: contract pointer target, renter
private key, host public key and refund account. -/
structure PayByContractMethod where
  contract : Contract
  privkey : Nat
  hostKey : Nat
  refundAccountID : Nat
  deriving Repr, DecidableEq

/-- The failure cases of `Session.payByContract`, in source order. -/
inductive PayByContractError where
  | insufficientRenterFunds
  | tipContextFailed
  | writeRequestFailed
  | readResponseFailed
  | hostSignatureInvalid
  deriving Repr, DecidableEq

/-- The chain validation context: it supplies the contract signature-hash
function (`vc.ContractSigHash`). -/
structure ValidationContext where
  contractSigHash : CoreRevision → Nat

/-- The revision derived by `payByContract` before signing: increment the
uint64 revision number, subtract `amount` from both renter outputs, add
`amount` to both host outputs. -/
def payByContractNextRevision (rev : CoreRevision) (amount : Nat) : CoreRevision :=
  { rev with
    revisionNumber := (rev.revisionNumber + 1) % uint64Mod
    validRenterOutput := ⟨rev.validRenterOutput.value - amount⟩
    missedRenterOutput := ⟨rev.missedRenterOutput.value - amount⟩
    validHostOutput := ⟨rev.validHostOutput.value + amount⟩
    missedHostOutput := ⟨rev.missedHostOutput.value + amount⟩ }

/-- Model of `Session.payByContract`: checks renter funds, fetches the tip validation
context, derives and signs the next revision, writes the request, reads the
host's response, verifies the host's countersignature over the recomputed
revision hash, and only then commits revision and signatures to the
contract's working state.  The returned pair is the (possibly updated)
payment state together with the error, `none` meaning success. -/
def payByContract (tipContext : Option ValidationContext) (writeFails : Bool)
    (readResponse : Option Nat) (verifyHash : Nat → Nat → Nat → Bool)
    (signHash : Nat → Nat → Nat) (payment : PayByContractMethod) (amount : Nat) :
    PayByContractMethod × Option PayByContractError :=
  if payment.contract.revision.validRenterOutput.value < amount then
    (payment, some .insufficientRenterFunds)
  else if payment.contract.revision.missedRenterOutput.value < amount then
    (payment, some .insufficientRenterFunds)
  else match tipContext with
  | none => (payment, some .tipContextFailed)
  | some vc =>
    let revision := payByContractNextRevision payment.contract.revision amount
    let revisionHash := vc.contractSigHash revision
    let reqSignature := signHash payment.privkey revisionHash
    if writeFails then (payment, some .writeRequestFailed)
    else match readResponse with
    | none => (payment, some .readResponseFailed)
    | some respSignature =>
      if ¬ verifyHash payment.hostKey revisionHash respSignature then
        (payment, some .hostSignatureInvalid)
      else
        ({ payment with contract := { payment.contract with
            revision := revision
            renterSignature := reqSignature
            hostSignature := respSignature } }, none)

/-! ## modules: AccountID and WithdrawalMessage (src/unnamed/part_001)

Go strings are byte sequences, modelled as `List Nat`.  `types.SiaPublicKey`
and its canonical string form live outside src/, so they are modelled from
the spec (see `siaPublicKeyString`).  `build.Critical` halts execution in
debug builds; it and the explicit Go panics are modelled by the
`PanicOr.panic` outcome. -/

/-- An outcome that is either a value or a halted computation (Go panic /
`build.Critical`). -/
inductive PanicOr (α : Type) where
  | panic
  | ok (val : α)
  deriving Repr, DecidableEq

/-- An ephemeral-account id: the bytes of the Go string. -/
abbrev AccountID := List Nat

/-- Model of `ZeroAccountID`: the empty string, the only account id allowed to be
invalid. -/
def ZeroAccountID : AccountID := []

/-- Model of `AccountID.IsZeroAccount`: comparison against the empty string. -/
def isZeroAccount (aid : AccountID) : Bool :=
  aid = ZeroAccountID

/-- Modelled from the spec: `types.SiaPublicKey` (algorithm specifier plus
raw key bytes) is not under src/ and is consumed here as an opaque pair of
byte lists. -/
structure SiaPublicKey where
  algorithm : List Nat
  key : List Nat
  deriving Repr, DecidableEq

/-- Modelled from the spec: the canonical string form of a
`types.SiaPublicKey` ("round-trips a public key through a canonical
string/bytes form").  The algorithm and key bytes are emitted after a
length marker for the algorithm, so the form is self-delimiting, never
empty, and decodes back to the same key. -/
def siaPublicKeyString (spk : SiaPublicKey) : List Nat :=
  spk.algorithm.length :: (spk.algorithm ++ spk.key)

/-- Modelled from the spec: `types.SiaPublicKey.LoadString`, the decoder of
the canonical form.  It fails on the empty string and on a malformed
length marker, and is the inverse of `siaPublicKeyString`. -/
def siaPublicKeyLoadString (s : List Nat) : Option SiaPublicKey :=
  match s with
  | [] => none
  | n :: rest =>
    if n ≤ rest.length then some ⟨rest.take n, rest.drop n⟩ else none

/-- Model of `AccountID.FromSPK`: the account id is the canonical string of the key. -/
def fromSPK (spk : SiaPublicKey) : AccountID :=
  siaPublicKeyString spk

/-- Model of `AccountID.LoadString`: parse the string as a SiaPublicKey and, on
success, store its canonical form via `FromSPK`. -/
def accountLoadString (s : List Nat) : Option AccountID :=
  match siaPublicKeyLoadString s with
  | none => none
  | some spk => some (fromSPK spk)

/-- Model of `AccountID.MarshalSia`: writes the id as a length-prefixed byte string.
The 8-byte little-endian length prefix of the external encoding package is
modelled as a single leading length token. -/
def marshalSia (aid : AccountID) : List Nat :=
  aid.length :: aid

/-- Model of `AccountID.UnmarshalSia`: reads a length-prefixed byte string; an empty
payload yields the zero account, any other payload is parsed with
`AccountID.LoadString`.  The decoder errors when the stream is shorter than
its length prefix announces. -/
def unmarshalSia (stream : List Nat) : Option AccountID :=
  match stream with
  | [] => none
  | n :: rest =>
    if rest.length < n then none
    else if (rest.take n).isEmpty then some ZeroAccountID
    else accountLoadString (rest.take n)

/-- Model of `AccountID.SPK`: halts (`build.Critical`) on the zero account or when the
id fails to parse as a SiaPublicKey. -/
def accountSPK (aid : AccountID) : PanicOr SiaPublicKey :=
  if isZeroAccount aid then .panic
  else match siaPublicKeyLoadString aid with
  | none => .panic
  | some spk => .ok spk

/-- Value of `crypto.PublicKeySize`: the byte length of a crypto.PublicKey. -/
def publicKeySize : Nat := 32

/-- Model of `AccountID.PK`: converts via `SPK` and copies the key bytes into a
fixed-size crypto.PublicKey, panicking on a key-length mismatch. -/
def accountPK (aid : AccountID) : PanicOr (List Nat) :=
  match accountSPK aid with
  | .panic => .panic
  | .ok spk => if spk.key.length ≠ publicKeySize then .panic else .ok spk.key

/-- Model of `modules.WithdrawalMessage`. -/
structure WithdrawalMessage where
  account : AccountID
  expiry : Nat
  amount : Nat
  nonce : List Nat
  deriving Repr, DecidableEq

/-- The withdrawal validation errors of src/unnamed/part_001. -/
inductive WithdrawalError where
  | withdrawalExpired
  | withdrawalExtremeFuture
  | withdrawalInvalidSignature
  deriving Repr, DecidableEq

/-- Model of `WithdrawalMessage.ValidateExpiry`: expired when the current block height
exceeds the message expiry, too far into the future when the expiry exceeds
the host's bound. -/
def validateExpiry (wm : WithdrawalMessage) (blockHeight expiry : Nat) :
    Option WithdrawalError :=
  if blockHeight > wm.expiry then some .withdrawalExpired
  else if wm.expiry > expiry then some .withdrawalExtremeFuture
  else none

/-- Model of `WithdrawalMessage.ValidateSignature`: recovers the account's public key
and verifies the signature over the hash with the abstract primitive
`verifyHash hash pk sig`; the key recovery halts on the zero account. -/
def validateSignature (verifyHash : Nat → List Nat → Nat → Bool)
    (wm : WithdrawalMessage) (hash sig : Nat) : PanicOr (Option WithdrawalError) :=
  match accountPK wm.account with
  | .panic => .panic
  | .ok pk =>
    if verifyHash hash pk sig then .ok none
    else .ok (some .withdrawalInvalidSignature)

/-- Model of `errors.Compose`: the aggregate of a list of possibly-nil errors, kept in
order; the composed error is nil exactly when every component is nil (here:
the empty list). -/
def composeErrors (errs : List (Option WithdrawalError)) : List WithdrawalError :=
  errs.filterMap id

/-- Model of `WithdrawalMessage.Validate`: composes the expiry check and the signature
check with `errors.Compose`, so both run and both failures are reported. -/
def validate (verifyHash : Nat → List Nat → Nat → Bool) (wm : WithdrawalMessage)
    (blockHeight expiry hash sig : Nat) : PanicOr (List WithdrawalError) :=
  let expiryErr := validateExpiry wm blockHeight expiry
  match validateSignature verifyHash wm hash sig with
  | .panic => .panic
  | .ok sigErr => .ok (composeErrors [expiryErr, sigErr])

/-! ## host renewal verification (modelled from the spec)

The host-side functions `renewAllowed` and `verifyRenewedContract` are
exercised by src/modules/host/rpcrenewcontract_test.go but their bodies are
not under src/.  They are modelled from the spec's gate list (§4.3), with
the derived quantities (base price, base collateral, expected collateral,
locked collateral) taken as inputs, since their derivation functions are
likewise not under src/. -/

/-- The gate errors of the renewal verification engine. -/
inductive RenewError where
  | notAcceptingContracts
  | lateRevision
  | badFileSize
  | badFileMerkleRoot
  | earlyWindow
  | smallWindow
  | longDuration
  | badContractOutputCounts
  | badPayoutUnlockHashes
  | badUnlockHash
  | maxCollateralReached
  | collateralBudgetExceeded
  | lowHostValidOutput
  | lowHostMissedOutput
  | lowVoidOutput
  deriving Repr, DecidableEq

/-- Modelled from the spec: the admission gate `renewAllowed`.  Fails with
`NotAcceptingContracts` when the host accepts no new obligations, fails with
`LateRevision` when `windowStart <= blockHeight + revisionSubmissionBuffer`,
and passes otherwise.  The buffer constant is not under src/ and is passed
as a parameter. -/
def renewAllowed (revisionSubmissionBuffer : Nat) (acceptingContracts : Bool)
    (blockHeight windowStart : Nat) : Option RenewError :=
  if ¬ acceptingContracts then some .notAcceptingContracts
  else if windowStart ≤ blockHeight + revisionSubmissionBuffer then some .lateRevision
  else none

/-- The host's externally advertised settings used by the renewal gates. -/
structure HostExternalSettings where
  windowSize : Nat
  maxDuration : Nat
  maxCollateral : Nat
  contractPrice : Nat
  deriving Repr, DecidableEq

/-- The host's internal settings used by the renewal gates. -/
structure HostInternalSettings where
  collateralBudget : Nat
  deriving Repr, DecidableEq

/-- The fields of a proposed renewal `FileContract` used by the gates. -/
structure RenewContract where
  fileSize : Nat
  fileMerkleRoot : Nat
  windowStart : Nat
  windowEnd : Nat
  validProofOutputs : List SiacoinOutput
  missedProofOutputs : List SiacoinOutput
  unlockHash : Nat
  deriving Repr, DecidableEq

/-- All inputs of `verifyRenewedContract`: the storage obligation's current
file size and merkle root, chain height, both settings snapshots, the
derived prices and collateral, the expected unlock hashes, and the proposed
contract. -/
structure RenewalVerifyInput where
  revisionSubmissionBuffer : Nat
  blockHeight : Nat
  soFileSize : Nat
  soMerkleRoot : Nat
  es : HostExternalSettings
  is : HostInternalSettings
  basePrice : Nat
  baseCollateral : Nat
  expectedCollateral : Nat
  lockedCollateral : Nat
  hostUnlockHash : Nat
  voidUnlockHash : Nat
  contractUnlockHash : Nat
  fc : RenewContract

/-- Modelled from the spec: gate 3, size/root continuity.  The renewal must
not change what is stored. -/
def sizeRootGate (inp : RenewalVerifyInput) : Option RenewError :=
  if inp.fc.fileSize ≠ inp.soFileSize then some .badFileSize
  else if inp.fc.fileMerkleRoot ≠ inp.soMerkleRoot then some .badFileMerkleRoot
  else none

/-- Modelled from the spec: gate 4, window gates.  `WindowStart` must exceed
`blockHeight + revisionSubmissionBuffer`, the window must be at least the
advertised window size, and the start must not be more than the maximum
duration away. -/
def windowGate (inp : RenewalVerifyInput) : Option RenewError :=
  if ¬ (inp.blockHeight + inp.revisionSubmissionBuffer < inp.fc.windowStart) then
    some .earlyWindow
  else if inp.fc.windowEnd - inp.fc.windowStart < inp.es.windowSize then
    some .smallWindow
  else if inp.es.maxDuration < inp.fc.windowStart - inp.blockHeight then
    some .longDuration
  else none

/-- Modelled from the spec: gate 5, output shape.  Exactly 2 valid and 3
missed outputs; the host's and void's payout unlock hashes must match; the
contract's aggregate unlock hash must equal the expected 2-of-2 multisig
hash. -/
def outputShapeGate (inp : RenewalVerifyInput) : Option RenewError :=
  if ¬ (inp.fc.validProofOutputs.length = 2 ∧ inp.fc.missedProofOutputs.length = 3) then
    some .badContractOutputCounts
  else if ¬ ((inp.fc.validProofOutputs[1]?.map SiacoinOutput.unlockHash
        = some inp.hostUnlockHash)
      ∧ (inp.fc.missedProofOutputs[1]?.map SiacoinOutput.unlockHash
        = some inp.hostUnlockHash)
      ∧ (inp.fc.missedProofOutputs[2]?.map SiacoinOutput.unlockHash
        = some inp.voidUnlockHash)) then
    some .badPayoutUnlockHashes
  else if inp.fc.unlockHash ≠ inp.contractUnlockHash then some .badUnlockHash
  else none

/-- Modelled from the spec: gate 7, collateral budget gates.  Fails with
`MaxCollateralReached` when the expected collateral alone exceeds the
per-contract maximum, and with `CollateralBudgetExceeded` when it does not
fit the global collateral budget on top of the already locked collateral. -/
def collateralGate (inp : RenewalVerifyInput) : Option RenewError :=
  if inp.es.maxCollateral < inp.expectedCollateral then some .maxCollateralReached
  else if inp.is.collateralBudget < inp.lockedCollateral + inp.expectedCollateral then
    some .collateralBudgetExceeded
  else none

/-- Modelled from the spec: gate 8, value gates on the host's valid and
missed payouts and on the void payout. -/
def valueGate (inp : RenewalVerifyInput) : Option RenewError :=
  if (inp.fc.validProofOutputs[1]?.map SiacoinOutput.value).getD 0 <
      inp.es.contractPrice + inp.basePrice then
    some .lowHostValidOutput
  else if (inp.fc.missedProofOutputs[1]?.map SiacoinOutput.value).getD 0 <
      (inp.fc.validProofOutputs[1]?.map SiacoinOutput.value).getD 0
        - inp.baseCollateral - inp.basePrice then
    some .lowHostMissedOutput
  else if (inp.fc.missedProofOutputs[2]?.map SiacoinOutput.value).getD 0 <
      inp.baseCollateral + inp.basePrice then
    some .lowVoidOutput
  else none

/-- Modelled from the spec: `verifyRenewedContract` evaluates the gates in
the fixed order of §4.3, short-circuiting at the first failure, and mutates
nothing. -/
def verifyRenewedContract (inp : RenewalVerifyInput) : Option RenewError :=
  match sizeRootGate inp with
  | some e => some e
  | none =>
    match windowGate inp with
    | some e => some e
    | none =>
      match outputShapeGate inp with
      | some e => some e
      | none =>
        match collateralGate inp with
        | some e => some e
        | none => valueGate inp

/-! ## Theorems -/

/-- C4: `ValidateExpiry` returns `WithdrawalExpired` exactly when the current
height exceeds the message expiry, `WithdrawalTooFarInFuture` exactly when it
does not and the expiry exceeds the host's bound, and no error otherwise; a
message expiring one block ago fails as expired, one expiring at the current
height passes the expiry gate. -/
theorem validateExpiry_spec (wm : WithdrawalMessage) (blockHeight maxFutureExpiry : Nat) :
    (validateExpiry wm blockHeight maxFutureExpiry = some .withdrawalExpired ↔
      wm.expiry < blockHeight)
    ∧ (validateExpiry wm blockHeight maxFutureExpiry = some .withdrawalExtremeFuture ↔
      (blockHeight ≤ wm.expiry ∧ maxFutureExpiry < wm.expiry))
    ∧ (validateExpiry wm blockHeight maxFutureExpiry = none ↔
      (blockHeight ≤ wm.expiry ∧ wm.expiry ≤ maxFutureExpiry))
    ∧ (1 ≤ blockHeight → wm.expiry = blockHeight - 1 →
      validateExpiry wm blockHeight maxFutureExpiry = some .withdrawalExpired)
    ∧ (wm.expiry = blockHeight →
      validateExpiry wm blockHeight maxFutureExpiry ≠ some .withdrawalExpired) := by
  unfold validateExpiry
  split_ifs with h1 h2 <;> simp_all <;> omega

/-- Witness for C4 at a concrete input: expiry one below the current height
is rejected as expired. -/
theorem validateExpiry_spec_witness :
    validateExpiry ⟨[], 4, 1, []⟩ 5 10 = some .withdrawalExpired :=
  (validateExpiry_spec ⟨[], 4, 1, []⟩ 5 10).2.2.2.1 (by decide) (by decide)

/-- C3: on the zero account, `ValidateSignature` (also as run from
`Validate`) halts at the zero-account guard: the verification primitive is
never consulted, no key is recovered, and no success is ever returned, so the
zero account never authorizes a withdrawal. -/
theorem validateSignature_zero_account (verifyHash : Nat → List Nat → Nat → Bool)
    (wm : WithdrawalMessage) (blockHeight maxFutureExpiry hash sig : Nat)
    (hz : wm.account = ZeroAccountID) :
    validateSignature verifyHash wm hash sig = .panic
    ∧ validate verifyHash wm blockHeight maxFutureExpiry hash sig = .panic := by
  unfold validate validateSignature accountPK accountSPK isZeroAccount
  simp [hz]

/-- Witness for C3 at a concrete input: a zero-account message with an
always-accepting verification primitive still halts and authorizes nothing. -/
theorem validateSignature_zero_account_witness :
    validateSignature (fun _ _ _ => true) ⟨[], 0, 1, []⟩ 0 0 = .panic :=
  (validateSignature_zero_account (fun _ _ _ => true) ⟨[], 0, 1, []⟩ 2 3 0 0 rfl).1

/-- C7: the renewal admission gate fails with `NotAcceptingContracts` when
the host accepts no new contracts, otherwise fails with `LateRevision`
exactly when `windowStart <= blockHeight + revisionSubmissionBuffer`, and
passes otherwise; equality at the buffer boundary fails, one block later
passes. -/
theorem renewAllowed_spec (buffer blockHeight windowStart : Nat) (accepting : Bool) :
    (accepting = false →
      renewAllowed buffer accepting blockHeight windowStart = some .notAcceptingContracts)
    ∧ (accepting = true →
      (renewAllowed buffer accepting blockHeight windowStart = some .lateRevision ↔
        windowStart ≤ blockHeight + buffer))
    ∧ (accepting = true → blockHeight + buffer < windowStart →
      renewAllowed buffer accepting blockHeight windowStart = none)
    ∧ (accepting = true → windowStart = blockHeight + buffer →
      renewAllowed buffer accepting blockHeight windowStart = some .lateRevision)
    ∧ (accepting = true → windowStart = blockHeight + buffer + 1 →
      renewAllowed buffer accepting blockHeight windowStart = none) := by
  unfold renewAllowed
  split_ifs with h1 h2 <;> simp_all <;> omega

/-- Witness for C7 at concrete inputs: the buffer boundary fails as a late
revision and one block past it passes. -/
theorem renewAllowed_spec_witness :
    renewAllowed 144 true 0 144 = some .lateRevision
    ∧ renewAllowed 144 true 0 145 = none :=
  ⟨(renewAllowed_spec 144 0 144 true).2.2.2.1 rfl (by decide),
    (renewAllowed_spec 144 0 145 true).2.2.2.2 rfl (by decide)⟩

/-- C5: whenever the account's key recovery succeeds, `Validate` returns the
aggregate of the expiry check and the signature check: the composed error
list is empty exactly when both checks pass, and both failures appear, in
order, when both checks fail. -/
theorem validate_aggregate (verifyHash : Nat → List Nat → Nat → Bool)
    (wm : WithdrawalMessage) (blockHeight maxFutureExpiry hash sig : Nat)
    (pk : List Nat) (hpk : accountPK wm.account = .ok pk) :
    validate verifyHash wm blockHeight maxFutureExpiry hash sig =
      .ok (composeErrors [validateExpiry wm blockHeight maxFutureExpiry,
        if verifyHash hash pk sig then none else some .withdrawalInvalidSignature])
    ∧ (validate verifyHash wm blockHeight maxFutureExpiry hash sig = .ok [] ↔
      (validateExpiry wm blockHeight maxFutureExpiry = none
        ∧ verifyHash hash pk sig = true))
    ∧ (∀ e, validateExpiry wm blockHeight maxFutureExpiry = some e →
        verifyHash hash pk sig = false →
        validate verifyHash wm blockHeight maxFutureExpiry hash sig =
          .ok [e, .withdrawalInvalidSignature]) := by
  unfold validate validateSignature
  rw [hpk]
  cases hv : verifyHash hash pk sig <;>
    cases hex : validateExpiry wm blockHeight maxFutureExpiry <;>
      simp_all [composeErrors]

/-- Witness for C5 at a concrete input: an expired message whose signature is
also rejected yields both failures in one aggregate. -/
theorem validate_aggregate_witness :
    validate (fun _ _ _ => false) ⟨0 :: List.replicate 32 0, 4, 1, []⟩ 5 10 0 0 =
      .ok [.withdrawalExpired, .withdrawalInvalidSignature] :=
  (validate_aggregate (fun _ _ _ => false) ⟨0 :: List.replicate 32 0, 4, 1, []⟩
    5 10 0 0 (List.replicate 32 0) (by decide)).2.2
    .withdrawalExpired (by decide) rfl

/-- The canonical SiaPublicKey string form decodes to the key it encodes. -/
theorem siaPublicKeyLoadString_roundtrip (spk : SiaPublicKey) :
    siaPublicKeyLoadString (siaPublicKeyString spk) = some spk := by
  unfold siaPublicKeyLoadString siaPublicKeyString
  simp

/-- The canonical SiaPublicKey string form is never the empty string, so an
account id created from a key is never the zero account. -/
theorem fromSPK_ne_zero (spk : SiaPublicKey) : fromSPK spk ≠ ZeroAccountID := by
  simp [fromSPK, siaPublicKeyString, ZeroAccountID]

/-- An account id loaded with `AccountID.LoadString` is the canonical form of
the key it parsed. -/
theorem accountLoadString_fromSPK (s : List Nat) (aid : AccountID)
    (h : accountLoadString s = some aid) : ∃ spk, aid = fromSPK spk := by
  unfold accountLoadString at h
  cases hsp : siaPublicKeyLoadString s with
  | none => rw [hsp] at h; exact absurd h (by simp)
  | some spk =>
    rw [hsp] at h
    exact ⟨spk, by injection h with h; exact h.symm⟩

/-- Marshalling then unmarshalling a canonical public-key account id is the
identity. -/
theorem unmarshalSia_marshal_fromSPK (spk : SiaPublicKey) :
    unmarshalSia (marshalSia (fromSPK spk)) = some (fromSPK spk) := by
  have h1 : accountLoadString (fromSPK spk) = some (fromSPK spk) := by
    unfold accountLoadString fromSPK
    rw [siaPublicKeyLoadString_roundtrip]
  have h2 : (fromSPK spk).isEmpty = false := by
    simp [fromSPK, siaPublicKeyString]
  unfold marshalSia unmarshalSia
  simp [List.take_length, h1, h2]

/-- C10: `MarshalSia`/`UnmarshalSia` round-trip the zero account and every
account id created via `FromSPK`; a zero-length payload decodes to the zero
account, a successful decode is zero only for a zero-length payload, and any
non-empty payload that decodes successfully yields a public-key account id. -/
theorem accountID_serialization_roundtrip :
    (∀ aid : AccountID, (aid = ZeroAccountID ∨ ∃ spk, aid = fromSPK spk) →
      unmarshalSia (marshalSia aid) = some aid)
    ∧ (∀ rest : List Nat, unmarshalSia (0 :: rest) = some ZeroAccountID)
    ∧ (∀ (n : Nat) (rest : List Nat) (aid : AccountID),
        unmarshalSia (n :: rest) = some aid → aid = ZeroAccountID → n = 0)
    ∧ (∀ (n : Nat) (rest : List Nat) (aid : AccountID),
        unmarshalSia (n :: rest) = some aid → aid ≠ ZeroAccountID →
        ∃ spk, aid = fromSPK spk) := by
  refine ⟨?_, ?_, ?_, ?_⟩
  · rintro aid (rfl | ⟨spk, rfl⟩)
    · rfl
    · exact unmarshalSia_marshal_fromSPK spk
  · intro rest
    unfold unmarshalSia
    simp
  · intro n rest aid h hz
    subst hz
    simp only [unmarshalSia] at h
    by_cases hlt : rest.length < n
    · rw [if_pos hlt] at h
      exact absurd h (by simp)
    · rw [if_neg hlt] at h
      by_cases he : (rest.take n).isEmpty = true
      · have htake : rest.take n = [] := List.isEmpty_iff.mp he
        have hlen := List.length_take n rest
        rw [htake] at hlen
        simp at hlen
        omega
      · rw [if_neg he] at h
        obtain ⟨spk, hspk⟩ := accountLoadString_fromSPK _ _ h
        exact absurd hspk.symm (fromSPK_ne_zero spk)
  · intro n rest aid h hne
    simp only [unmarshalSia] at h
    by_cases hlt : rest.length < n
    · rw [if_pos hlt] at h
      exact absurd h (by simp)
    · rw [if_neg hlt] at h
      by_cases he : (rest.take n).isEmpty = true
      · rw [if_pos he] at h
        exact absurd (by injection h with h; exact h.symm) hne
      · rw [if_neg he] at h
        exact accountLoadString_fromSPK _ _ h

/-- Witness for C10 at a concrete input: a canonical two-byte-key account id
survives the marshal/unmarshal round trip. -/
theorem accountID_serialization_roundtrip_witness :
    unmarshalSia (marshalSia (fromSPK ⟨[1], [2, 3]⟩)) = some (fromSPK ⟨[1], [2, 3]⟩) :=
  accountID_serialization_roundtrip.1 (fromSPK ⟨[1], [2, 3]⟩) (Or.inr ⟨⟨[1], [2, 3]⟩, rfl⟩)

/-- C6: `payByContract` commits the contract's working state only after the
host's countersignature verifies against the host key over the recomputed
revision hash; every failure — insufficient renter funds, a failed tip
context, a transport error on the request or the response, or a failed host
signature verification — returns an error and leaves the payment state
untouched. -/
theorem payByContract_atomic_commit (tipContext : Option ValidationContext)
    (writeFails : Bool) (readResponse : Option Nat)
    (verifyHash : Nat → Nat → Nat → Bool) (signHash : Nat → Nat → Nat)
    (payment : PayByContractMethod) (amount : Nat) :
    ((payByContract tipContext writeFails readResponse verifyHash signHash
        payment amount).2 ≠ none →
      (payByContract tipContext writeFails readResponse verifyHash signHash
        payment amount).1 = payment)
    ∧ (payment.contract.revision.validRenterOutput.value < amount ∨
        payment.contract.revision.missedRenterOutput.value < amount →
      payByContract tipContext writeFails readResponse verifyHash signHash
        payment amount = (payment, some .insufficientRenterFunds))
    ∧ ((payByContract tipContext writeFails readResponse verifyHash signHash
        payment amount).2 = none →
      ∃ vc s, tipContext = some vc ∧ readResponse = some s
        ∧ verifyHash payment.hostKey
            (vc.contractSigHash
              (payByContractNextRevision payment.contract.revision amount)) s = true
        ∧ (payByContract tipContext writeFails readResponse verifyHash signHash
            payment amount).1 = { payment with contract :=
          { payment.contract with
            revision := payByContractNextRevision payment.contract.revision amount
            renterSignature := signHash payment.privkey
              (vc.contractSigHash
                (payByContractNextRevision payment.contract.revision amount))
            hostSignature := s } }) := by
  unfold payByContract
  cases tipContext <;> cases writeFails <;> cases readResponse <;>
    split_ifs <;> simp_all
  split_ifs <;> simp_all

/-- Witness for C6 at a concrete input: an underfunded payment fails with
insufficient renter funds and leaves the payment state untouched. -/
theorem payByContract_atomic_commit_witness :
    payByContract none false none (fun _ _ _ => true) (fun _ _ => 7)
      ⟨⟨1, ⟨0, ⟨3⟩, ⟨0⟩, ⟨3⟩, ⟨0⟩⟩, 0, 0⟩, 3, 2, 5⟩ 4 =
      (⟨⟨1, ⟨0, ⟨3⟩, ⟨0⟩, ⟨3⟩, ⟨0⟩⟩, 0, 0⟩, 3, 2, 5⟩, some .insufficientRenterFunds) :=
  (payByContract_atomic_commit none false none (fun _ _ _ => true) (fun _ _ => 7)
    ⟨⟨1, ⟨0, ⟨3⟩, ⟨0⟩, ⟨3⟩, ⟨0⟩⟩, 0, 0⟩, 3, 2, 5⟩ 4).2.1 (Or.inl (by decide))

/-- C8: once the size/root, window and output-shape gates pass,
`verifyRenewedContract` fails with `MaxCollateralReached` exactly when the
expected collateral exceeds the host's `MaxCollateral` — so a maximum of
`expectedCollateral - 1` fails and a maximum of exactly `expectedCollateral`
passes that gate — and fails with `CollateralBudgetExceeded` when the locked
plus expected collateral exceeds the host's collateral budget. -/
theorem verifyRenewedContract_collateral_gates (inp : RenewalVerifyInput)
    (h3 : sizeRootGate inp = none) (h4 : windowGate inp = none)
    (h5 : outputShapeGate inp = none) :
    (verifyRenewedContract inp = some .maxCollateralReached ↔
      inp.es.maxCollateral < inp.expectedCollateral)
    ∧ (1 ≤ inp.expectedCollateral →
        inp.es.maxCollateral = inp.expectedCollateral - 1 →
        verifyRenewedContract inp = some .maxCollateralReached)
    ∧ (inp.es.maxCollateral = inp.expectedCollateral →
        verifyRenewedContract inp ≠ some .maxCollateralReached)
    ∧ (inp.expectedCollateral ≤ inp.es.maxCollateral →
        inp.is.collateralBudget < inp.lockedCollateral + inp.expectedCollateral →
        verifyRenewedContract inp = some .collateralBudgetExceeded) := by
  unfold verifyRenewedContract collateralGate valueGate
  rw [h3, h4, h5]
  split_ifs <;> simp_all <;> omega

/-- Witness for C8 at a concrete input: a renewal passing the earlier gates
whose expected collateral exceeds the advertised maximum by one is rejected
with `MaxCollateralReached`. -/
theorem verifyRenewedContract_collateral_gates_witness :
    verifyRenewedContract ⟨10, 0, 0, 0, ⟨5, 100, 7, 1⟩, ⟨100⟩, 1, 2, 8, 0, 2, 0, 9,
      ⟨0, 0, 11, 16, [⟨3, 1⟩, ⟨4, 2⟩], [⟨3, 1⟩, ⟨4, 2⟩, ⟨5, 0⟩], 9⟩⟩ =
      some .maxCollateralReached :=
  (verifyRenewedContract_collateral_gates
    ⟨10, 0, 0, 0, ⟨5, 100, 7, 1⟩, ⟨100⟩, 1, 2, 8, 0, 2, 0, 9,
      ⟨0, 0, 11, 16, [⟨3, 1⟩, ⟨4, 2⟩], [⟨3, 1⟩, ⟨4, 2⟩, ⟨5, 0⟩], 9⟩⟩
    (by decide) (by decide) (by decide)).2.1 (by decide) (by decide)

/-- Success shape of `payByContract`: a `none` error means the derived next
revision was committed, and the renter outputs covered the amount. -/
theorem payByContract_success_shape (tipContext : Option ValidationContext)
    (writeFails : Bool) (readResponse : Option Nat)
    (verifyHash : Nat → Nat → Nat → Bool) (signHash : Nat → Nat → Nat)
    (payment : PayByContractMethod) (amount : Nat)
    (h : (payByContract tipContext writeFails readResponse verifyHash signHash
      payment amount).2 = none) :
    (payByContract tipContext writeFails readResponse verifyHash signHash
        payment amount).1.contract.revision =
      payByContractNextRevision payment.contract.revision amount
    ∧ amount ≤ payment.contract.revision.validRenterOutput.value
    ∧ amount ≤ payment.contract.revision.missedRenterOutput.value := by
  unfold payByContract at h ⊢
  cases tipContext <;> cases writeFails <;> cases readResponse <;>
    split_ifs at h ⊢ <;> simp_all
  all_goals split_ifs at h ⊢
  all_goals simp_all

/-- Success shape of `PaymentRevision` on a revision with at least two valid
and three missed outputs whose renter outputs cover the amount: the exact
returned revision. -/
theorem paymentRevision_cons_ok (fcr : FileContractRevision) (amount : Nat)
    (v0 v1 m0 m1 m2 : SiacoinOutput) (vrest mrest : List SiacoinOutput)
    (hv : fcr.newValidProofOutputs = v0 :: v1 :: vrest)
    (hm : fcr.newMissedProofOutputs = m0 :: m1 :: m2 :: mrest)
    (h1 : amount ≤ v0.value) (h2 : amount ≤ m0.value) :
    fcr.paymentRevision amount = .ok { fcr with
      newValidProofOutputs := [{ v0 with value := v0.value - amount },
        { v1 with value := v1.value + amount }]
      newMissedProofOutputs := [{ m0 with value := m0.value - amount }, m1,
        { m2 with value := m2.value + amount }]
      newRevisionNumber := (fcr.newRevisionNumber + 1) % uint64Mod } := by
  unfold FileContractRevision.paymentRevision makeCopy
  rw [hv, hm]
  simp [Nat.not_lt.mpr h1, Nat.not_lt.mpr h2, List.set]

/-- C1 (counterexample): on a concrete revision with 2 valid and 3 missed
outputs and sufficient renter funds, `PaymentRevision` does not add the
amount to the host's missed-proof output (index 1): that output keeps its
old value, the amount goes to the void output instead. -/
theorem paymentRevision_missed_to_void_counterexample :
    ¬ (∀ rev, FileContractRevision.paymentRevision
        ⟨0, 5, 0, 0, 0, 0, [⟨10, 1⟩, ⟨0, 2⟩], [⟨10, 1⟩, ⟨7, 2⟩, ⟨0, 3⟩], 0⟩ 5 =
          Except.ok rev →
        rev.newMissedProofOutputs[1]?.map SiacoinOutput.value = some (7 + 5)) := by
  intro h
  exact absurd (h ⟨0, 6, 0, 0, 0, 0, [⟨5, 1⟩, ⟨5, 2⟩], [⟨5, 1⟩, ⟨7, 2⟩, ⟨5, 3⟩], 0⟩
    (by decide)) (by decide)

/-- C1 (amended): with at least 2 valid and 3 missed outputs and renter
outputs covering the amount, `PaymentRevision` increments the uint64 revision
number, subtracts the amount from the renter's valid and missed outputs, adds
it to the host's valid output and to the void missed output, leaving the
host's missed output unchanged; `payByContract` derives its revision the same
way except that the missed amount goes to the host's missed output. -/
theorem payment_moves_funds (fcr : FileContractRevision) (amount : Nat)
    (v0 v1 m0 m1 m2 : SiacoinOutput) (vrest mrest : List SiacoinOutput)
    (hv : fcr.newValidProofOutputs = v0 :: v1 :: vrest)
    (hm : fcr.newMissedProofOutputs = m0 :: m1 :: m2 :: mrest)
    (h1 : amount ≤ v0.value) (h2 : amount ≤ m0.value) :
    fcr.paymentRevision amount = .ok { fcr with
      newValidProofOutputs := [{ v0 with value := v0.value - amount },
        { v1 with value := v1.value + amount }]
      newMissedProofOutputs := [{ m0 with value := m0.value - amount }, m1,
        { m2 with value := m2.value + amount }]
      newRevisionNumber := (fcr.newRevisionNumber + 1) % uint64Mod }
    ∧ (∀ (tipContext : Option ValidationContext) (writeFails : Bool)
        (readResponse : Option Nat) (verifyHash : Nat → Nat → Nat → Bool)
        (signHash : Nat → Nat → Nat) (payment : PayByContractMethod) (amt : Nat),
        (payByContract tipContext writeFails readResponse verifyHash signHash
          payment amt).2 = none →
        (payByContract tipContext writeFails readResponse verifyHash signHash
          payment amt).1.contract.revision =
          ⟨(payment.contract.revision.revisionNumber + 1) % uint64Mod,
            ⟨payment.contract.revision.validRenterOutput.value - amt⟩,
            ⟨payment.contract.revision.validHostOutput.value + amt⟩,
            ⟨payment.contract.revision.missedRenterOutput.value - amt⟩,
            ⟨payment.contract.revision.missedHostOutput.value + amt⟩⟩) := by
  refine ⟨paymentRevision_cons_ok fcr amount v0 v1 m0 m1 m2 vrest mrest hv hm h1 h2, ?_⟩
  intro tipContext writeFails readResponse verifyHash signHash payment amt h
  rw [(payByContract_success_shape tipContext writeFails readResponse verifyHash
    signHash payment amt h).1]
  rfl

/-- Witness for C1 (amended) at a concrete input. -/
theorem payment_moves_funds_witness :
    FileContractRevision.paymentRevision
      ⟨0, 5, 0, 0, 0, 0, [⟨10, 1⟩, ⟨0, 2⟩], [⟨10, 1⟩, ⟨7, 2⟩, ⟨0, 3⟩], 0⟩ 5 =
      .ok ⟨0, 6, 0, 0, 0, 0, [⟨5, 1⟩, ⟨5, 2⟩], [⟨5, 1⟩, ⟨7, 2⟩, ⟨5, 3⟩], 0⟩ := by
  have h := (payment_moves_funds
    ⟨0, 5, 0, 0, 0, 0, [⟨10, 1⟩, ⟨0, 2⟩], [⟨10, 1⟩, ⟨7, 2⟩, ⟨0, 3⟩], 0⟩ 5
    ⟨10, 1⟩ ⟨0, 2⟩ ⟨10, 1⟩ ⟨7, 2⟩ ⟨0, 3⟩ [] [] rfl rfl
    (by decide) (by decide)).1
  rw [h]
  decide

/-- C2 (counterexample): on a concrete revision with 3 valid-proof outputs
(at least 2) whose third output is non-zero, `PaymentRevision` truncates the
valid outputs to 2 entries, so the sum of valid-proof output values is not
preserved. -/
theorem paymentRevision_sum_counterexample :
    ¬ (∀ rev, FileContractRevision.paymentRevision
        ⟨0, 0, 0, 0, 0, 0, [⟨10, 0⟩, ⟨0, 0⟩, ⟨5, 0⟩], [⟨10, 0⟩, ⟨0, 0⟩, ⟨0, 0⟩], 0⟩ 2 =
          Except.ok rev →
        sumValues rev.newValidProofOutputs =
          sumValues [⟨10, 0⟩, ⟨0, 0⟩, ⟨5, 0⟩]) := by
  intro h
  exact absurd (h ⟨0, 1, 0, 0, 0, 0, [⟨8, 0⟩, ⟨2, 0⟩], [⟨8, 0⟩, ⟨0, 0⟩, ⟨2, 0⟩], 0⟩
    (by decide)) (by decide)

/-- C2 (amended): on a revision with exactly 2 valid and exactly 3 missed
outputs whose renter outputs cover the amount, `PaymentRevision` preserves
the sum of the valid-proof output values and the sum of the missed-proof
output values; a successful `payByContract` likewise preserves the sums of
its valid and missed outputs. -/
theorem paymentRevision_conserves_payout (fcr : FileContractRevision) (amount : Nat)
    (v0 v1 m0 m1 m2 : SiacoinOutput)
    (hv : fcr.newValidProofOutputs = [v0, v1])
    (hm : fcr.newMissedProofOutputs = [m0, m1, m2])
    (h1 : amount ≤ v0.value) (h2 : amount ≤ m0.value) :
    (∃ rev, fcr.paymentRevision amount = .ok rev
      ∧ sumValues rev.newValidProofOutputs = sumValues fcr.newValidProofOutputs
      ∧ sumValues rev.newMissedProofOutputs = sumValues fcr.newMissedProofOutputs)
    ∧ (∀ (tipContext : Option ValidationContext) (writeFails : Bool)
        (readResponse : Option Nat) (verifyHash : Nat → Nat → Nat → Bool)
        (signHash : Nat → Nat → Nat) (payment : PayByContractMethod) (amt : Nat),
        (payByContract tipContext writeFails readResponse verifyHash signHash
          payment amt).2 = none →
        ((payByContract tipContext writeFails readResponse verifyHash signHash
            payment amt).1.contract.revision.validRenterOutput.value
          + (payByContract tipContext writeFails readResponse verifyHash signHash
            payment amt).1.contract.revision.validHostOutput.value
          = payment.contract.revision.validRenterOutput.value
            + payment.contract.revision.validHostOutput.value
        ∧ (payByContract tipContext writeFails readResponse verifyHash signHash
            payment amt).1.contract.revision.missedRenterOutput.value
          + (payByContract tipContext writeFails readResponse verifyHash signHash
            payment amt).1.contract.revision.missedHostOutput.value
          = payment.contract.revision.missedRenterOutput.value
            + payment.contract.revision.missedHostOutput.value)) := by
  constructor
  · refine ⟨_, paymentRevision_cons_ok fcr amount v0 v1 m0 m1 m2 [] [] hv hm h1 h2,
      ?_, ?_⟩
    · rw [hv]
      simp [sumValues]
      omega
    · rw [hm]
      simp [sumValues]
      omega
  · intro tipContext writeFails readResponse verifyHash signHash payment amt h
    obtain ⟨hrev, hle1, hle2⟩ := payByContract_success_shape tipContext writeFails
      readResponse verifyHash signHash payment amt h
    rw [hrev]
    unfold payByContractNextRevision
    constructor <;> simp <;> omega

/-- Witness for C2 (amended) at a concrete input: the payout sums before and
after a payment of 2 agree. -/
theorem paymentRevision_conserves_payout_witness :
    ∃ rev, FileContractRevision.paymentRevision
      ⟨0, 0, 0, 0, 0, 0, [⟨10, 0⟩, ⟨0, 0⟩], [⟨10, 0⟩, ⟨3, 0⟩, ⟨0, 0⟩], 0⟩ 2 = .ok rev
      ∧ sumValues rev.newValidProofOutputs = sumValues [⟨10, 0⟩, ⟨0, 0⟩]
      ∧ sumValues rev.newMissedProofOutputs = sumValues [⟨10, 0⟩, ⟨3, 0⟩, ⟨0, 0⟩] :=
  (paymentRevision_conserves_payout
    ⟨0, 0, 0, 0, 0, 0, [⟨10, 0⟩, ⟨0, 0⟩], [⟨10, 0⟩, ⟨3, 0⟩, ⟨0, 0⟩], 0⟩ 2
    ⟨10, 0⟩ ⟨0, 0⟩ ⟨10, 0⟩ ⟨3, 0⟩ ⟨0, 0⟩ rfl rfl (by decide) (by decide)).1

/-- C9 (counterexample): at the maximal uint64 revision number, the revision
number of a successful `PaymentRevision` wraps to 0 and is not strictly
greater than the old one. -/
theorem paymentRevision_revision_number_wrap_counterexample :
    ¬ (∀ rev, FileContractRevision.paymentRevision
        ⟨0, 18446744073709551615, 0, 0, 0, 0, [⟨1, 0⟩, ⟨0, 0⟩],
          [⟨1, 0⟩, ⟨0, 0⟩, ⟨0, 0⟩], 0⟩ 1 = Except.ok rev →
        18446744073709551615 < rev.newRevisionNumber) := by
  intro h
  exact absurd (h ⟨0, 0, 0, 0, 0, 0, [⟨0, 0⟩, ⟨1, 0⟩], [⟨0, 0⟩, ⟨0, 0⟩, ⟨1, 0⟩], 0⟩
    (by decide)) (by decide)

/-- C9 (amended): whenever the old revision number is below the maximal
uint64 value, any accepted payment revision — from `PaymentRevision` or from
a successful `payByContract` — carries a strictly larger revision number. -/
theorem payment_increments_revision_number :
    (∀ (fcr : FileContractRevision) (amount : Nat) (rev : FileContractRevision),
      fcr.newRevisionNumber + 1 < uint64Mod →
      fcr.paymentRevision amount = .ok rev →
      fcr.newRevisionNumber < rev.newRevisionNumber)
    ∧ (∀ (tipContext : Option ValidationContext) (writeFails : Bool)
        (readResponse : Option Nat) (verifyHash : Nat → Nat → Nat → Bool)
        (signHash : Nat → Nat → Nat) (payment : PayByContractMethod) (amt : Nat),
        payment.contract.revision.revisionNumber + 1 < uint64Mod →
        (payByContract tipContext writeFails readResponse verifyHash signHash
          payment amt).2 = none →
        payment.contract.revision.revisionNumber <
          (payByContract tipContext writeFails readResponse verifyHash signHash
            payment amt).1.contract.revision.revisionNumber) := by
  constructor
  · intro fcr amount rev hlt h
    simp only [FileContractRevision.paymentRevision] at h
    repeat' split at h
    any_goals exact Except.noConfusion h
    injection h with h
    subst h
    simp only [uint64Mod] at hlt
    simp [uint64Mod]
    omega
  · intro tipContext writeFails readResponse verifyHash signHash payment amt hlt h
    rw [(payByContract_success_shape tipContext writeFails readResponse verifyHash
      signHash payment amt h).1]
    unfold payByContractNextRevision
    simp only [uint64Mod] at hlt ⊢
    omega

/-- Witness for C9 (amended) at a concrete input: a payment at revision
number 5 yields revision number 6. -/
theorem payment_increments_revision_number_witness :
    (5 : Nat) <
      (FileContractRevision.paymentRevision
        ⟨0, 5, 0, 0, 0, 0, [⟨10, 1⟩, ⟨0, 2⟩], [⟨10, 1⟩, ⟨7, 2⟩, ⟨0, 3⟩], 0⟩ 5
        |>.toOption.getD ⟨0, 0, 0, 0, 0, 0, [], [], 0⟩).newRevisionNumber :=
  payment_increments_revision_number.1
    ⟨0, 5, 0, 0, 0, 0, [⟨10, 1⟩, ⟨0, 2⟩], [⟨10, 1⟩, ⟨7, 2⟩, ⟨0, 3⟩], 0⟩ 5
    ⟨0, 6, 0, 0, 0, 0, [⟨5, 1⟩, ⟨5, 2⟩], [⟨5, 1⟩, ⟨7, 2⟩, ⟨5, 3⟩], 0⟩
    (by decide) (by decide)

end Siad
